import Mathlib

/-!
Shallow embedding of the youtube-telegram-bot sources (src/main.py and
src/mai.py) for checking the natural-language specification.

The embedding models:
* `is_youtube_url`            (main.py lines 22-28, mai.py lines 23-29) via a
  small backtracking regular-expression matcher over the exact pattern text;
* the policy constants and the post-download size check
  (main.py lines 19-20 and 174-179);
* the message formatting of the success path (main.py lines 183-199);
* the error-classification if/elif chains (main.py lines 209-233,
  mai.py lines 228-257);
* `download_audio_sync`       (main.py lines 116-148) and the orchestration
  `download_youtube_audio`    (main.py lines 150-233) as an event trace.
-/

namespace YTBot

/-! ### Python string primitives used by the sources -/

/-- `isPrefixL p l` : the char list `p` is a prefix of `l`. -/
def isPrefixL : List Char → List Char → Bool
  | [], _ => true
  | _ :: _, [] => false
  | p :: ps, x :: xs => p == x && isPrefixL ps xs

/-- `containsL pat l` : the char list `pat` occurs contiguously in `l`
(Python's `pat in l` substring test). -/
def containsL (pat : List Char) : List Char → Bool
  | [] => isPrefixL pat []
  | x :: xs => isPrefixL pat (x :: xs) || containsL pat xs

/-- Python `pat in s` on strings. -/
def strContains (s pat : String) : Bool :=
  containsL pat.data s.data

/-- Python `s.lower()`.  Modelled with `Char.toLower` (ASCII lowering); every
pattern the sources search after lowering (`"bot"`) is ASCII, so the
difference from Python's full Unicode lowering does not affect any test the
code performs. -/
def strLower (s : String) : String :=
  ⟨s.data.map Char.toLower⟩

/-- Python `s[:n]` on a string (slice of the first `n` characters). -/
def strTake (s : String) (n : Nat) : String :=
  ⟨s.data.take n⟩

/-- Python `s.endswith(suffix)`. -/
def strEndsWith (s suffix : String) : Bool :=
  isPrefixL suffix.data.reverse s.data.reverse

/-! ### Configuration constants (main.py lines 19-20, identical in mai.py) -/

/-- `MAX_FILE_SIZE = 50 * 1024 * 1024` (50MB). -/
def MAX_FILE_SIZE : Nat := 50 * 1024 * 1024

/-- `MAX_DURATION = 30 * 60` (30 minutes). -/
def MAX_DURATION : Nat := 30 * 60

/-- The spec's `PolicyLimits`: the pair of module-level limit constants.  The
sources read the two globals directly; the embedding passes them as a record
so that claims quantifying over configured limits can be stated. -/
structure PolicyLimits where
  max_size : Nat
  max_duration : Nat
  deriving DecidableEq, Repr

/-- The source configuration: `MAX_FILE_SIZE` / `MAX_DURATION`. -/
def defaultLimits : PolicyLimits :=
  { max_size := MAX_FILE_SIZE, max_duration := MAX_DURATION }

/-! ### The URL regular expression

`is_youtube_url` (main.py lines 22-28) compiles

  `(https?://)?(www\.)?(youtube|youtu|youtube-nocookie)\.(com|be)/`
  `(watch\?v=|embed/|v/|.+\?v=)?([^&=%\?]{11})`

and tests `regex.match(url) is not None`: a match anchored at the start of
the string, with the end unanchored.  The boolean result only depends on
whether SOME decomposition of a prefix of the input matches the pattern, so
we model the pattern with a matcher that returns every possible remainder. -/

/-- Regular-expression syntax: literal characters, one-character classes,
sequencing, alternation, greedy option, and a greedy `+` over a class
(enough for `.+`). -/
inductive RE where
  | eps : RE
  | chr (c : Char) : RE
  | cls (p : Char → Bool) : RE
  | seq (a b : RE) : RE
  | alt (a b : RE) : RE
  | opt (a : RE) : RE
  | plusCls (p : Char → Bool) : RE

/-- All strict tails of `s` reachable by consuming one or more characters
satisfying `p` from the front (used for the greedy `+`). -/
def clsTails (p : Char → Bool) : List Char → List (List Char)
  | [] => []
  | x :: xs => if p x then xs :: clsTails p xs else []

/-- `reMatches r s` : every remainder `rest` such that `r` matches the
prefix of `s` before `rest`.  Python's `re.match` succeeds exactly when this
list is nonempty. -/
def reMatches : RE → List Char → List (List Char)
  | .eps, s => [s]
  | .chr _, [] => []
  | .chr c, x :: xs => if x == c then [xs] else []
  | .cls _, [] => []
  | .cls p, x :: xs => if p x then [xs] else []
  | .seq a b, s => (reMatches a s).flatMap (fun mid => reMatches b mid)
  | .alt a b, s => reMatches a s ++ reMatches b s
  | .opt a, s => reMatches a s ++ [s]
  | .plusCls p, s => clsTails p s

/-- `regex.match(url) is not None`. -/
def reMatch (r : RE) (s : List Char) : Bool :=
  !(reMatches r s).isEmpty

/-- A sequence of literal characters. -/
def strREL : List Char → RE
  | [] => .eps
  | c :: cs => .seq (.chr c) (strREL cs)

/-- A literal string as a regular expression. -/
def strRE (s : String) : RE := strREL s.data

/-- `n`-fold repetition of a character class (`{n}`). -/
def repCls (p : Char → Bool) : Nat → RE
  | 0 => .eps
  | n + 1 => .seq (.cls p) (repCls p n)

/-- `.` : any character except a newline. -/
def isNotNL (c : Char) : Bool := !(c == '\n')

/-- `[^&=%\?]` : any character other than `&`, `=`, `%`, `?`. -/
def isIdChar (c : Char) : Bool :=
  !(c == '&' || c == '=' || c == '%' || c == '?')

/-- `(https?://)?` -/
def schemePart : RE :=
  .opt (.seq (strRE "http") (.seq (.opt (.chr 's')) (strRE "://")))

/-- `(www\.)?` -/
def wwwPart : RE := .opt (strRE "www.")

/-- `(youtube|youtu|youtube-nocookie)` -/
def hostPart : RE :=
  .alt (strRE "youtube") (.alt (strRE "youtu") (strRE "youtube-nocookie"))

/-- `(com|be)` -/
def tldPart : RE := .alt (strRE "com") (strRE "be")

/-- `(watch\?v=|embed/|v/|.+\?v=)?` -/
def pathPart : RE :=
  .opt (.alt (strRE "watch?v=")
       (.alt (strRE "embed/")
       (.alt (strRE "v/")
             (.seq (.plusCls isNotNL) (strRE "?v=")))))

/-- `([^&=%\?]{11})` -/
def idPart : RE := repCls isIdChar 11

/-- The full pattern of `is_youtube_url`. -/
def youtube_regex : RE :=
  .seq schemePart
  (.seq wwwPart
  (.seq hostPart
  (.seq (.chr '.')
  (.seq tldPart
  (.seq (.chr '/')
  (.seq pathPart idPart))))))

/-- main.py lines 22-28 / mai.py lines 23-29: `is_youtube_url(url)`. -/
def is_youtube_url (url : String) : Bool :=
  reMatch youtube_regex url.data

/-! ### Success-path formatting (main.py lines 183-199) -/

/-- Python's `f"{n:02d}"` for a non-negative integer: pad with a leading `0`
to at least two digits. -/
def pad2 (n : Nat) : String :=
  if n < 10 then "0" ++ Nat.repr n else Nat.repr n

/-- main.py line 183: `f"{duration//60}:{duration%60:02d}"`. -/
def durationStr (d : Nat) : String :=
  Nat.repr (d / 60) ++ ":" ++ pad2 (d % 60)

/-- main.py line 184: `f"{file_size//1024} KB"`. -/
def sizeStr (n : Nat) : String :=
  Nat.repr (n / 1024) ++ " KB"

/-- main.py line 188: `result['title'][:80]` followed by `'...'` exactly when
`len(result['title']) > 80`. -/
def captionTitleField (title : String) : String :=
  strTake title 80 ++ (if title.length > 80 then "..." else "")

/-- main.py line 198: `f"{result['title'][:50]}.mp3"`. -/
def filenameOf (title : String) : String :=
  strTake title 50 ++ ".mp3"

/-- Result value returned by `download_audio_sync` (main.py lines 142-148). -/
structure ExtractionResult where
  file_path : String
  title : String
  duration : Nat
  uploader : String
  file_size : Nat
  deriving DecidableEq, Repr

/-- main.py lines 186-193: the caption of the delivered document. -/
def captionOf (r : ExtractionResult) : String :=
  "🎵 Аудио готово!\n\n📄 " ++ captionTitleField r.title ++
  "\n👤 " ++ r.uploader ++
  "\n⏱️ Длительность: " ++ durationStr r.duration ++
  "\n📏 Размер: " ++ sizeStr r.file_size ++
  "\n\n➡️ Теперь перешлите этот файл основному боту для транскрипции"

/-! ### The post-download policy check -/

/-- A violated policy rule. -/
inductive Violation where
  | DurationViolation : Violation
  | SizeViolation : Violation
  deriving DecidableEq, Repr

/-- The post-download policy check the code performs (main.py lines 174-179,
mai.py lines 187-192): only `result['file_size'] > MAX_FILE_SIZE` is tested
after the download. -/
def policyGuardCheck_code (lim : PolicyLimits) (r : ExtractionResult) :
    Option Violation :=
  if r.file_size > lim.max_size then some .SizeViolation else none

/-- The Policy Guard as the spec describes it (spec section 4.3, for
comparison with `policyGuardCheck_code`): first the duration against
`max_duration`, then the file size against `max_size`, returning the first
violated rule. -/
def policyGuard_spec (lim : PolicyLimits) (r : ExtractionResult) :
    Option Violation :=
  if r.duration > lim.max_duration then some .DurationViolation
  else if r.file_size > lim.max_size then some .SizeViolation
  else none

/-! ### Failure classification (main.py lines 209-233, mai.py 228-257) -/

/-- The spec's closed error taxonomy (section 7). -/
inductive FailureCategory where
  | AccessBlocked : FailureCategory
  | PrivateVideo : FailureCategory
  | DurationExceeded : FailureCategory
  | SizeExceeded : FailureCategory
  | Unknown : FailureCategory
  deriving DecidableEq, Repr

/-- The if/elif chain of main.py lines 209-233 as a category. -/
def classify_main (e : String) : FailureCategory :=
  if strContains e "Sign in to confirm" || strContains (strLower e) "bot" then
    .AccessBlocked
  else if strContains e "Private video" then .PrivateVideo
  else if strContains e "слишком длинное" then .DurationExceeded
  else .Unknown

/-- The if/elif chain of mai.py lines 228-257 as a category: same tests in
the same order, plus a `"File too large"` rule before the catch-all. -/
def classify_mai (e : String) : FailureCategory :=
  if strContains e "Sign in to confirm" || strContains (strLower e) "bot" then
    .AccessBlocked
  else if strContains e "Private video" then .PrivateVideo
  else if strContains e "слишком длинное" then .DurationExceeded
  else if strContains e "File too large" then .SizeExceeded
  else .Unknown

/-- main.py lines 209-233: the user-facing text chosen for an error. -/
def failMessage_main (e : String) : String :=
  if strContains e "Sign in to confirm" || strContains (strLower e) "bot" then
    "❌ YouTube заблокировал доступ\n\nЭто происходит из-за защиты от ботов.\nПопробуйте:\n• Другое видео\n• Повторить через несколько минут\n• Более короткое видео"
  else if strContains e "Private video" then
    "❌ Приватное видео\n\nМожно скачивать только публичные видео."
  else if strContains e "слишком длинное" then
    "❌ Видео слишком длинное\n\nМаксимальная длительность: " ++
      Nat.repr (MAX_DURATION / 60) ++ " минут"
  else
    "❌ Ошибка скачивания\n\nДетали: " ++ strTake e 200 ++
      "\n\nПопробуйте другое видео или повторите позже."

/-! ### The blocking extraction step (main.py lines 116-148) -/

/-- One run of the external extractor, as observed by
`download_audio_sync`: the metadata `extract_info` returns (`none` for an
absent key, so `info.get(key, default)` substitutes the default), the
directory listing after `ydl.download`, and the size reported for the
downloaded file. -/
structure ExtractorRun where
  info_title : Option String
  info_duration : Option Nat
  info_uploader : Option String
  files : List String
  fsize : String → Nat

/-- main.py line 134: `file.endswith(('.mp3', '.m4a', '.webm', '.wav'))`. -/
def isAudioFile (f : String) : Bool :=
  strEndsWith f ".mp3" || strEndsWith f ".m4a" ||
  strEndsWith f ".webm" || strEndsWith f ".wav"

/-- main.py line 128: the message of the duration-exceeded exception. -/
def durationErrMsg (lim : PolicyLimits) (duration : Nat) : String :=
  "Видео слишком длинное (" ++ Nat.repr (duration / 60) ++
  " мин). Максимум: " ++ Nat.repr (lim.max_duration / 60) ++ " мин"

/-- main.py line 138: the message of the no-audio-file exception. -/
def noAudioMsg : String := "Аудио файл не найден после скачивания"

/-- main.py lines 116-148: `download_audio_sync(url, temp_dir)`.  The first
component records whether `ydl.download` was invoked; the second is the
returned dict or the raised exception's message. -/
def download_audio_sync (lim : PolicyLimits) (ex : ExtractorRun)
    (temp_dir : String) : Bool × Except String ExtractionResult :=
  let title := ex.info_title.getD "Unknown"
  let duration := ex.info_duration.getD 0
  let uploader := ex.info_uploader.getD "Unknown"
  if duration > lim.max_duration then
    (false, .error (durationErrMsg lim duration))
  else
    let audio_files := ex.files.filter isAudioFile
    match audio_files with
    | [] => (true, .error noAudioMsg)
    | f :: _ =>
      let audio_file := temp_dir ++ "/" ++ f
      (true, .ok { file_path := audio_file, title := title,
                   duration := duration, uploader := uploader,
                   file_size := ex.fsize audio_file })

/-! ### The orchestration (main.py lines 150-233) as an event trace -/

/-- The externally visible actions of `download_youtube_audio`, in order:
chat sends/edits, temporary-directory acquisition and removal, and the
invocation of the media download. -/
inductive Event where
  | replyText (text : String) : Event
  | acquireTmp : Event
  | editStatus (text : String) : Event
  | invokeDownload : Event
  | sendDocument (filename caption : String) : Event
  | deleteStatus : Event
  | removeTmp : Event
  deriving DecidableEq, Repr

/-- Environment of one orchestration run: the incoming message text, the
temporary-directory name the `tempfile` module picks, the extractor's
behaviour, and whether `reply_document` raises (with which message). -/
structure World where
  url : String
  temp_dir : String
  ex : ExtractorRun
  deliveryError : Option String

/-- main.py lines 155-160: the not-a-YouTube-link reply. -/
def notALinkMsg : String :=
  "❌ Это не ссылка на YouTube.\n\nОтправьте корректную ссылку, например:\n• https://youtube.com/watch?v=...\n• https://youtu.be/..."

/-- main.py line 163. -/
def analyzingMsg : String := "⏳ Анализирую видео..."

/-- main.py line 167. -/
def downloadingMsg : String := "📡 Скачиваю аудио... Это может занять время."

/-- main.py line 181. -/
def sendingMsg : String := "📤 Отправляю файл..."

/-- main.py lines 175-178: the size-rejection message. -/
def sizeFailMsg (file_size : Nat) : String :=
  "❌ Файл слишком большой (" ++ Nat.repr (file_size / 1024 / 1024) ++
  "MB)\nМаксимум: " ++ Nat.repr (MAX_FILE_SIZE / 1024 / 1024) ++ "MB"

/-- main.py lines 150-233: `download_youtube_audio` as the ordered trace of
its externally visible actions.  The `with tempfile.TemporaryDirectory()`
block removes the directory on every way out of its body (normal fall-
through, `return`, or an exception), before the `except` handler at line
205 edits the status message. -/
def download_youtube_audio (w : World) : List Event :=
  if is_youtube_url w.url = false then [.replyText notALinkMsg]
  else
    let dl := download_audio_sync defaultLimits w.ex w.temp_dir
    [.replyText analyzingMsg, .acquireTmp, .editStatus downloadingMsg] ++
    (if dl.1 then [Event.invokeDownload] else []) ++
    (match dl.2 with
     | .error e => [.removeTmp, .editStatus (failMessage_main e)]
     | .ok r =>
       if (policyGuardCheck_code defaultLimits r).isSome then
         [.editStatus (sizeFailMsg r.file_size), .removeTmp]
       else
         [.editStatus sendingMsg] ++
         (match w.deliveryError with
          | some e2 => [.removeTmp, .editStatus (failMessage_main e2)]
          | none => [.sendDocument (filenameOf r.title) (captionOf r),
                     .deleteStatus, .removeTmp]))

/-! ### Lemmas about the substring test -/

theorem strData_append (a b : String) : (a ++ b).data = a.data ++ b.data := rfl

theorem containsL_nil_pat (l : List Char) : containsL [] l = true := by
  induction l with
  | nil => rfl
  | cons x xs ih => simp [containsL, isPrefixL]

theorem isPrefixL_append_right (p : List Char) :
    ∀ l m : List Char, isPrefixL p l = true → isPrefixL p (l ++ m) = true := by
  induction p with
  | nil => intro l m _; rfl
  | cons c cs ih =>
    intro l m h
    cases l with
    | nil => simp [isPrefixL] at h
    | cons x xs =>
      simp only [isPrefixL, Bool.and_eq_true] at h
      simp only [List.cons_append, isPrefixL, Bool.and_eq_true]
      exact ⟨h.1, ih xs m h.2⟩

theorem containsL_append_right (pat : List Char) :
    ∀ l m : List Char, containsL pat l = true → containsL pat (l ++ m) = true := by
  intro l
  induction l with
  | nil =>
    intro m h
    simp only [containsL] at h
    cases pat with
    | nil => simpa using containsL_nil_pat m
    | cons c cs => simp [isPrefixL] at h
  | cons x xs ih =>
    intro m h
    simp only [containsL, Bool.or_eq_true] at h
    rcases h with h | h
    · simp only [List.cons_append, containsL, Bool.or_eq_true]
      exact Or.inl (isPrefixL_append_right _ _ _ h)
    · simp only [List.cons_append, containsL, Bool.or_eq_true]
      exact Or.inr (ih m h)

theorem mem_of_isPrefixL (p : List Char) :
    ∀ l : List Char, isPrefixL p l = true → ∀ c ∈ p, c ∈ l := by
  induction p with
  | nil => intro l _ c hc; simp at hc
  | cons d ds ih =>
    intro l h c hc
    cases l with
    | nil => simp [isPrefixL] at h
    | cons x xs =>
      simp only [isPrefixL, Bool.and_eq_true, beq_iff_eq] at h
      rcases List.mem_cons.mp hc with rfl | hc
      · simp [h.1]
      · exact List.mem_cons_of_mem _ (ih xs h.2 c hc)

theorem mem_of_containsL (pat : List Char) :
    ∀ l : List Char, containsL pat l = true → ∀ c ∈ pat, c ∈ l := by
  intro l
  induction l with
  | nil =>
    intro h c hc
    simp only [containsL] at h
    cases pat with
    | nil => simp at hc
    | cons d ds => simp [isPrefixL] at h
  | cons x xs ih =>
    intro h c hc
    simp only [containsL, Bool.or_eq_true] at h
    rcases h with h | h
    · exact mem_of_isPrefixL pat _ h c hc
    · exact List.mem_cons_of_mem _ (ih h c hc)

/-- A substring test fails whenever some character of the pattern does not
occur in the text at all. -/
theorem containsL_eq_false_of (pat l : List Char) (c₀ : Char)
    (h1 : c₀ ∈ pat) (h2 : c₀ ∉ l) : containsL pat l = false := by
  cases hc : containsL pat l with
  | false => rfl
  | true => exact absurd (mem_of_containsL pat l hc c₀ h1) h2

/-! ### Every character of a rendered natural number is a decimal digit -/

def digitChars : List Char := ['0', '1', '2', '3', '4', '5', '6', '7', '8', '9']

theorem digitChar_mem_digits (m : Nat) (h : m < 10) :
    Nat.digitChar m ∈ digitChars := by
  interval_cases m <;> decide

theorem toDigitsCore_mem (fuel : Nat) :
    ∀ (n : Nat) (ds : List Char), (∀ c ∈ ds, c ∈ digitChars) →
      ∀ c ∈ Nat.toDigitsCore 10 fuel n ds, c ∈ digitChars := by
  induction fuel with
  | zero =>
    intro n ds hds c hc
    simpa [Nat.toDigitsCore] using hds c (by simpa [Nat.toDigitsCore] using hc)
  | succ f ih =>
    intro n ds hds c hc
    have hcons : ∀ x ∈ (n % 10).digitChar :: ds, x ∈ digitChars := by
      intro x hx
      rcases List.mem_cons.mp hx with rfl | hx
      · exact digitChar_mem_digits _ (Nat.mod_lt _ (by decide))
      · exact hds x hx
    rw [Nat.toDigitsCore] at hc
    by_cases hz : n / 10 = 0
    · rw [if_pos hz] at hc
      exact hcons c hc
    · rw [if_neg hz] at hc
      exact ih (n / 10) _ hcons c hc

theorem repr_mem_digits (n : Nat) : ∀ c ∈ (Nat.repr n).data, c ∈ digitChars := by
  intro c hc
  have : (Nat.repr n).data = Nat.toDigitsCore 10 (n + 1) n [] := rfl
  rw [this] at hc
  exact toDigitsCore_mem (n + 1) n [] (by simp) c hc

/-! ### Classifying the duration-exceeded exception message -/

/-- Every non-digit character that can appear in `durationErrMsg`. -/
def durMsgLits : List Char :=
  "Видео слишком длинное ( мин). Максимум:  мин".data

theorem durationErrMsg_data (lim : PolicyLimits) (d : Nat) :
    (durationErrMsg lim d).data =
      "Видео слишком длинное (".data ++
      ((Nat.repr (d / 60)).data ++
      (" мин). Максимум: ".data ++
      ((Nat.repr (lim.max_duration / 60)).data ++ " мин".data))) := by
  simp [durationErrMsg, strData_append, List.append_assoc]

theorem durationErrMsg_chars (lim : PolicyLimits) (d : Nat) :
    ∀ c ∈ (durationErrMsg lim d).data, c ∈ durMsgLits ∨ c ∈ digitChars := by
  intro c hc
  rw [durationErrMsg_data] at hc
  simp only [List.mem_append] at hc
  have hlitA : ∀ x ∈ "Видео слишком длинное (".data, x ∈ durMsgLits := by decide
  have hlitB : ∀ x ∈ " мин). Максимум: ".data, x ∈ durMsgLits := by decide
  have hlitC : ∀ x ∈ " мин".data, x ∈ durMsgLits := by decide
  rcases hc with hc | hc | hc | hc | hc
  · exact Or.inl (hlitA c hc)
  · exact Or.inr (repr_mem_digits _ c hc)
  · exact Or.inl (hlitB c hc)
  · exact Or.inr (repr_mem_digits _ c hc)
  · exact Or.inl (hlitC c hc)

theorem classify_main_durationErrMsg (lim : PolicyLimits) (d : Nat) :
    classify_main (durationErrMsg lim d) = .DurationExceeded := by
  have hmem := durationErrMsg_chars lim d
  have hS : strContains (durationErrMsg lim d) "Sign in to confirm" = false := by
    apply containsL_eq_false_of _ _ 'S' (by decide)
    intro hSin
    rcases hmem 'S' hSin with h | h <;> revert h <;> decide
  have hB : strContains (strLower (durationErrMsg lim d)) "bot" = false := by
    apply containsL_eq_false_of _ _ 'b' (by decide)
    intro hbin
    have : (strLower (durationErrMsg lim d)).data =
        (durationErrMsg lim d).data.map Char.toLower := rfl
    rw [this] at hbin
    rcases List.mem_map.mp hbin with ⟨c, hc, hcb⟩
    rcases hmem c hc with h | h
    · exact (show ∀ x ∈ durMsgLits, x.toLower ≠ 'b' by decide) c h hcb
    · exact (show ∀ x ∈ digitChars, x.toLower ≠ 'b' by decide) c h hcb
  have hP : strContains (durationErrMsg lim d) "Private video" = false := by
    apply containsL_eq_false_of _ _ 'P' (by decide)
    intro hPin
    rcases hmem 'P' hPin with h | h <;> revert h <;> decide
  have hD : strContains (durationErrMsg lim d) "слишком длинное" = true := by
    unfold strContains
    rw [durationErrMsg_data]
    exact containsL_append_right _ _ _ (by decide)
  simp [classify_main, hS, hB, hP, hD]

/-- `download_audio_sync` on an over-limit probed duration: no download, the
duration-exceeded exception. -/
theorem sync_duration_exceeded (lim : PolicyLimits) (ex : ExtractorRun)
    (td : String) (h : ex.info_duration.getD 0 > lim.max_duration) :
    download_audio_sync lim ex td =
      (false, .error (durationErrMsg lim (ex.info_duration.getD 0))) := by
  simp [download_audio_sync, h]

/-! ### Lemmas about the regular-expression matcher -/

theorem mem_reMatches_seq {a b : RE} {s mid rest : List Char}
    (h1 : mid ∈ reMatches a s) (h2 : rest ∈ reMatches b mid) :
    rest ∈ reMatches (.seq a b) s := by
  simp only [reMatches, List.mem_flatMap]
  exact ⟨mid, h1, h2⟩

theorem mem_reMatches_alt_left {a b : RE} {s rest : List Char}
    (h : rest ∈ reMatches a s) : rest ∈ reMatches (.alt a b) s := by
  simp only [reMatches, List.mem_append]
  exact Or.inl h

theorem mem_reMatches_alt_right {a b : RE} {s rest : List Char}
    (h : rest ∈ reMatches b s) : rest ∈ reMatches (.alt a b) s := by
  simp only [reMatches, List.mem_append]
  exact Or.inr h

theorem mem_reMatches_opt_skip (a : RE) (s : List Char) :
    s ∈ reMatches (.opt a) s := by
  simp [reMatches]

theorem mem_reMatches_opt_of {a : RE} {s rest : List Char}
    (h : rest ∈ reMatches a s) : rest ∈ reMatches (.opt a) s := by
  simp only [reMatches, List.mem_append]
  exact Or.inl h

theorem mem_reMatches_chr (c : Char) (s : List Char) :
    s ∈ reMatches (.chr c) (c :: s) := by
  simp [reMatches]

theorem mem_reMatches_strREL : ∀ w s : List Char,
    s ∈ reMatches (strREL w) (w ++ s)
  | [], s => by simp [strREL, reMatches]
  | c :: cs, s =>
    mem_reMatches_seq (mem_reMatches_chr c (cs ++ s))
      (mem_reMatches_strREL cs s)

theorem mem_reMatches_strRE (w : String) (s : List Char) :
    s ∈ reMatches (strRE w) (w.data ++ s) :=
  mem_reMatches_strREL w.data s

theorem mem_reMatches_repCls (p : Char → Bool) :
    ∀ t s : List Char, (∀ c ∈ t, p c = true) →
      s ∈ reMatches (repCls p t.length) (t ++ s)
  | [], s, _ => by simp [repCls, reMatches]
  | c :: cs, s, h => by
    have hc : p c = true := h c (by simp)
    exact mem_reMatches_seq
      (show (cs ++ s) ∈ reMatches (.cls p) (c :: (cs ++ s)) by
        simp [reMatches, hc])
      (mem_reMatches_repCls p cs s (fun x hx => h x (by simp [hx])))

theorem reMatch_of_mem {r : RE} {s rest : List Char}
    (h : rest ∈ reMatches r s) : reMatch r s = true := by
  have hne : reMatches r s ≠ [] := List.ne_nil_of_mem h
  simp [reMatch, List.isEmpty_iff, hne]

theorem strREL_cons_ne {c d : Char} {w s : List Char}
    (h : (c == d) = false) :
    reMatches (strREL (d :: w)) (c :: s) = [] := by
  simp [strREL, reMatches, h]

theorem reMatches_seq_eq (a b : RE) (l : List Char) :
    reMatches (.seq a b) l =
      (reMatches a l).flatMap (fun mid => reMatches b mid) := rfl

theorem reMatches_alt_eq (a b : RE) (l : List Char) :
    reMatches (.alt a b) l = reMatches a l ++ reMatches b l := rfl

theorem reMatches_opt_eq (a : RE) (l : List Char) :
    reMatches (.opt a) l = reMatches a l ++ [l] := rfl

/-! ### Consuming each piece of the URL pattern -/

theorem consume_scheme (sch : String)
    (h : sch ∈ (["", "http://", "https://"] : List String))
    (rest : List Char) : rest ∈ reMatches schemePart (sch.data ++ rest) := by
  have h3 : sch = "" ∨ sch = "http://" ∨ sch = "https://" := by simpa using h
  rcases h3 with rfl | rfl | rfl
  · exact mem_reMatches_opt_skip _ rest
  · exact mem_reMatches_opt_of
      (mem_reMatches_seq (mem_reMatches_strRE "http" ("://".data ++ rest))
        (mem_reMatches_seq (mem_reMatches_opt_skip _ _)
          (mem_reMatches_strRE "://" rest)))
  · exact mem_reMatches_opt_of
      (mem_reMatches_seq
        (mem_reMatches_strRE "http" ('s' :: ("://".data ++ rest)))
        (mem_reMatches_seq
          (mem_reMatches_opt_of (mem_reMatches_chr 's' ("://".data ++ rest)))
          (mem_reMatches_strRE "://" rest)))

theorem consume_www (wp : String)
    (h : wp ∈ (["", "www."] : List String)) (rest : List Char) :
    rest ∈ reMatches wwwPart (wp.data ++ rest) := by
  have h2 : wp = "" ∨ wp = "www." := by simpa using h
  rcases h2 with rfl | rfl
  · exact mem_reMatches_opt_skip _ rest
  · exact mem_reMatches_opt_of (mem_reMatches_strRE "www." rest)

theorem consume_host (host : String)
    (h : host ∈ (["youtube", "youtu", "youtube-nocookie"] : List String))
    (rest : List Char) : rest ∈ reMatches hostPart (host.data ++ rest) := by
  have h3 : host = "youtube" ∨ host = "youtu" ∨ host = "youtube-nocookie" := by
    simpa using h
  rcases h3 with rfl | rfl | rfl
  · exact mem_reMatches_alt_left (mem_reMatches_strRE "youtube" rest)
  · exact mem_reMatches_alt_right
      (mem_reMatches_alt_left (mem_reMatches_strRE "youtu" rest))
  · exact mem_reMatches_alt_right
      (mem_reMatches_alt_right (mem_reMatches_strRE "youtube-nocookie" rest))

theorem consume_tld (tld : String)
    (h : tld ∈ (["com", "be"] : List String)) (rest : List Char) :
    rest ∈ reMatches tldPart (tld.data ++ rest) := by
  have h2 : tld = "com" ∨ tld = "be" := by simpa using h
  rcases h2 with rfl | rfl
  · exact mem_reMatches_alt_left (mem_reMatches_strRE "com" rest)
  · exact mem_reMatches_alt_right (mem_reMatches_strRE "be" rest)

theorem consume_path (shape : String)
    (h : shape ∈ (["watch?v=", "embed/", "v/", ""] : List String))
    (rest : List Char) : rest ∈ reMatches pathPart (shape.data ++ rest) := by
  have h4 : shape = "watch?v=" ∨ shape = "embed/" ∨ shape = "v/" ∨
      shape = "" := by simpa using h
  rcases h4 with rfl | rfl | rfl | rfl
  · exact mem_reMatches_opt_of
      (mem_reMatches_alt_left (mem_reMatches_strRE "watch?v=" rest))
  · exact mem_reMatches_opt_of (mem_reMatches_alt_right
      (mem_reMatches_alt_left (mem_reMatches_strRE "embed/" rest)))
  · exact mem_reMatches_opt_of (mem_reMatches_alt_right
      (mem_reMatches_alt_right
        (mem_reMatches_alt_left (mem_reMatches_strRE "v/" rest))))
  · exact mem_reMatches_opt_skip _ rest

/-! ### Claim theorems -/

/-- C1 counterexample: an extraction result whose duration (1900 s) exceeds
the default `max_duration` (1800 s) but whose file size is within the limit
passes the code's post-download policy check with no violation, while the
Policy Guard described by the spec would return the duration violation
first.  The post-hoc duration check the claim asserts does not exist in the
code. -/
theorem C1_counterexample :
    policyGuardCheck_code defaultLimits
        { file_path := "f", title := "t", duration := 1900, uploader := "u",
          file_size := 0 } = none ∧
    policyGuard_spec defaultLimits
        { file_path := "f", title := "t", duration := 1900, uploader := "u",
          file_size := 0 } = some .DurationViolation ∧
    (1900 : Nat) > defaultLimits.max_duration := by
  refine ⟨rfl, ?_, by decide⟩
  decide

/-- C1 (amended): the post-download policy check examines only the file
size: its outcome is unchanged by the duration field, and it reports no
violation exactly when the file size is at most `max_size`; duration is
checked only pre-download by the adapter. -/
theorem C1_postcheck_size_only (lim : PolicyLimits) (r : ExtractionResult)
    (d : Nat) :
    policyGuardCheck_code lim { r with duration := d } =
      policyGuardCheck_code lim r ∧
    (policyGuardCheck_code lim r = none ↔ r.file_size ≤ lim.max_size) := by
  constructor
  · rfl
  · unfold policyGuardCheck_code
    split <;> rename_i h <;> simp <;> omega

/-- C2: the failure classifier's substring tests run in a fixed order with
the first match winning: any error text containing both the
case-insensitive token "bot" and the phrase "Private video" classifies as
`AccessBlocked`, not `PrivateVideo`, in both source files. -/
theorem C2_bot_beats_private (e : String)
    (hb : strContains (strLower e) "bot" = true)
    (hp : strContains e "Private video" = true) :
    classify_main e = .AccessBlocked ∧ classify_mai e = .AccessBlocked := by
  constructor <;> simp [classify_main, classify_mai, hb]

/-- Witness for C2 at the concrete error text "bot Private video". -/
theorem C2_witness :
    classify_main "bot Private video" = .AccessBlocked ∧
    classify_mai "bot Private video" = .AccessBlocked :=
  C2_bot_beats_private "bot Private video" (by decide) (by decide)

/-- C5 counterexample: on the error text "ERROR: File too large" the two
files disagree: main.py's chain (which has no file-too-large rule) lands in
the catch-all `Unknown`, while mai.py's chain returns `SizeExceeded`. -/
theorem C5_counterexample :
    classify_main "ERROR: File too large" = .Unknown ∧
    classify_mai "ERROR: File too large" = .SizeExceeded ∧
    classify_main "ERROR: File too large" ≠
      classify_mai "ERROR: File too large" := by
  refine ⟨by decide, by decide, by decide⟩

/-- C5 (amended): the two files' failure classifiers agree on every error
text that does not contain the marker "File too large"; on texts containing
that marker (and no earlier-matching marker) mai.py returns `SizeExceeded`
where main.py returns `Unknown`. -/
theorem C5_classifiers_agree (e : String)
    (h : strContains e "File too large" = false) :
    classify_main e = classify_mai e := by
  unfold classify_main classify_mai
  rw [h]
  simp

/-- Witness for C5 (amended) at a concrete error text. -/
theorem C5_witness : classify_main "hello" = classify_mai "hello" :=
  C5_classifiers_agree "hello" (by decide)

/-- C6: the post-download size boundary is inclusive of the limit: a file of
exactly 52,428,800 bytes (the 50 MiB default) passes with no violation, and
in general a violation is reported exactly when the file size is strictly
greater than `max_size`. -/
theorem C6_size_boundary_inclusive :
    policyGuardCheck_code defaultLimits
        { file_path := "f", title := "t", duration := 0, uploader := "u",
          file_size := 52428800 } = none ∧
    ∀ (lim : PolicyLimits) (r : ExtractionResult),
      (policyGuardCheck_code lim r).isSome = true ↔
        r.file_size > lim.max_size := by
  refine ⟨by decide, ?_⟩
  intro lim r
  unfold policyGuardCheck_code
  split <;> rename_i h <;> simp <;> omega

/-- C8: in the delivered message, the caption's title field is the title
truncated to 80 characters plus an ellipsis marker exactly when the title
is longer than 80 characters; duration 3725 renders as "62:05"
(minutes:seconds, seconds zero-padded to two digits); the size renders as
the file size integer-divided by 1024 followed by " KB"; and the delivered
filename is the title truncated to 50 characters with the fixed ".mp3"
extension. -/
theorem C8_caption_format :
    (∀ t : String, 80 < t.length →
        captionTitleField t = strTake t 80 ++ "..." ∧
        (strTake t 80).length = 80) ∧
    (∀ t : String, t.length ≤ 80 → captionTitleField t = t) ∧
    durationStr 3725 = "62:05" ∧
    (∀ n : Nat, sizeStr n = Nat.repr (n / 1024) ++ " KB") ∧
    (∀ t : String, filenameOf t = strTake t 50 ++ ".mp3" ∧
        (80 < t.length → (strTake t 50).length = 50)) := by
  refine ⟨?_, ?_, by decide, fun n => rfl, fun t => ⟨rfl, ?_⟩⟩
  · intro t ht
    constructor
    · simp [captionTitleField, ht]
    · have : (strTake t 80).length = (t.data.take 80).length := rfl
      rw [this, List.length_take]
      have : t.data.length = t.length := rfl
      omega
  · intro t ht
    have htake : strTake t 80 = t := by
      cases t with
      | mk l =>
        simp only [strTake]
        congr 1
        exact List.take_of_length_le ht
    simp [captionTitleField, Nat.not_lt.mpr ht, htake]
  · intro ht
    have : (strTake t 50).length = (t.data.take 50).length := rfl
    rw [this, List.length_take]
    have : t.data.length = t.length := rfl
    omega

/-- Witness for C8 at a concrete 85-character title. -/
theorem C8_witness :
    captionTitleField ⟨List.replicate 85 'a'⟩ =
        strTake ⟨List.replicate 85 'a'⟩ 80 ++ "..." ∧
    (strTake ⟨List.replicate 85 'a'⟩ 80).length = 80 ∧
    (strTake ⟨List.replicate 85 'a'⟩ 50).length = 50 ∧
    durationStr 3725 = "62:05" :=
  ⟨(C8_caption_format.1 ⟨List.replicate 85 'a'⟩ (by decide)).1,
   (C8_caption_format.1 ⟨List.replicate 85 'a'⟩ (by decide)).2,
   (C8_caption_format.2.2.2.2 ⟨List.replicate 85 'a'⟩).2 (by decide),
   C8_caption_format.2.2.1⟩

/-- C10: when the extractor's metadata carries no duration,
`download_audio_sync` substitutes 0, so the pre-download duration check
never rejects (for any positive configured limit): the download step is
reached, any failure can only be the no-audio-file error, and a successful
result carries duration 0, which the caption renders as "0:00". -/
theorem C10_unknown_duration (lim : PolicyLimits) (ex : ExtractorRun)
    (td : String) (hd : ex.info_duration = none)
    (hpos : 0 < lim.max_duration) :
    (download_audio_sync lim ex td).1 = true ∧
    (∀ e, (download_audio_sync lim ex td).2 = .error e → e = noAudioMsg) ∧
    (∀ r, (download_audio_sync lim ex td).2 = .ok r →
        r.duration = 0 ∧ durationStr r.duration = "0:00") := by
  have h0 : ex.info_duration.getD 0 = 0 := by rw [hd]; rfl
  unfold download_audio_sync
  rw [h0]
  simp only [gt_iff_lt, Nat.not_lt_zero, if_false]
  rcases hf : ex.files.filter isAudioFile with _ | ⟨f, fs⟩
  · refine ⟨rfl, ?_, ?_⟩
    · intro e he
      simpa using he.symm
    · intro r hr
      simp at hr
  · refine ⟨rfl, ?_, ?_⟩
    · intro e he
      simp at he
    · intro r hr
      simp only [Except.ok.injEq] at hr
      rw [← hr]
      exact ⟨rfl, show durationStr 0 = "0:00" from rfl⟩

/-- C3: whenever the probed duration exceeds the default `max_duration`, the
orchestration's trace contains no download invocation, removes the
temporary directory, and ends by replacing the status message with the
failure message of an error that classifies as `DurationExceeded`. -/
theorem C3_duration_precheck_blocks_download (w : World)
    (h1 : is_youtube_url w.url = true)
    (h2 : w.ex.info_duration.getD 0 > defaultLimits.max_duration) :
    Event.invokeDownload ∉ download_youtube_audio w ∧
    Event.removeTmp ∈ download_youtube_audio w ∧
    ∃ e, download_youtube_audio w =
        [.replyText analyzingMsg, .acquireTmp, .editStatus downloadingMsg,
         .removeTmp, .editStatus (failMessage_main e)] ∧
      classify_main e = .DurationExceeded := by
  have hsync := sync_duration_exceeded defaultLimits w.ex w.temp_dir h2
  have htr : download_youtube_audio w =
      [.replyText analyzingMsg, .acquireTmp, .editStatus downloadingMsg,
       .removeTmp,
       .editStatus (failMessage_main
         (durationErrMsg defaultLimits (w.ex.info_duration.getD 0)))] := by
    simp [download_youtube_audio, h1, hsync]
  refine ⟨?_, ?_, durationErrMsg defaultLimits (w.ex.info_duration.getD 0),
          htr, classify_main_durationErrMsg _ _⟩
  · rw [htr]; simp
  · rw [htr]; simp

/-- Concrete world for the C3 witness: a valid link whose probed duration is
1900 seconds. -/
def C3world : World :=
  { url := "https://youtu.be/dQw4w9WgXcQ", temp_dir := "tmp",
    ex := { info_title := some "T", info_duration := some 1900,
            info_uploader := some "U", files := [], fsize := fun _ => 0 },
    deliveryError := none }

/-- Witness for C3 at `C3world`. -/
theorem C3_witness :
    Event.invokeDownload ∉ download_youtube_audio C3world ∧
    Event.removeTmp ∈ download_youtube_audio C3world ∧
    ∃ e, download_youtube_audio C3world =
        [.replyText analyzingMsg, .acquireTmp, .editStatus downloadingMsg,
         .removeTmp, .editStatus (failMessage_main e)] ∧
      classify_main e = .DurationExceeded :=
  C3_duration_precheck_blocks_download C3world (by decide) (by decide)

/-- C4: every orchestration that acquires the temporary directory also
removes it, exactly once, whichever exit path is taken (successful
delivery, size rejection, an adapter error, or an exception raised during
file delivery). -/
theorem C4_tmpdir_removed (w : World)
    (h : Event.acquireTmp ∈ download_youtube_audio w) :
    Event.removeTmp ∈ download_youtube_audio w ∧
    (download_youtube_audio w).count Event.removeTmp = 1 := by
  by_cases hu : is_youtube_url w.url = false
  · exfalso
    rw [download_youtube_audio, if_pos hu] at h
    simp at h
  · rcases hdl : download_audio_sync defaultLimits w.ex w.temp_dir
      with ⟨did, res⟩
    simp only [download_youtube_audio, if_neg hu, hdl]
    rcases res with e | r
    · cases did <;>
        simp [List.count_append, List.count_cons, List.count_nil]
    · by_cases hps : (policyGuardCheck_code defaultLimits r).isSome
      · simp only [hps, if_true]
        cases did <;>
          simp [List.count_append, List.count_cons, List.count_nil]
      · simp only [Bool.not_eq_true] at hps
        simp only [hps, Bool.false_eq_true, if_false]
        rcases hde : w.deliveryError with _ | e2 <;> cases did <;>
          simp [List.count_append, List.count_cons, List.count_nil]

/-- Concrete world for the C4 witness: a valid link and a successful
download. -/
def C4world : World :=
  { url := "https://youtu.be/dQw4w9WgXcQ", temp_dir := "tmp",
    ex := { info_title := some "T", info_duration := some 100,
            info_uploader := some "U", files := ["x.mp3"],
            fsize := fun _ => 100 },
    deliveryError := none }

/-- Witness for C4 at `C4world`. -/
theorem C4_witness :
    Event.removeTmp ∈ download_youtube_audio C4world ∧
    (download_youtube_audio C4world).count Event.removeTmp = 1 :=
  C4_tmpdir_removed C4world (by decide)

/-- C7 counterexample: the match is not invalidated by arbitrary leading
characters before the scheme.  The second string is a recognized link; the
first prepends the leading characters "youtube.com/" before its scheme, and
`is_youtube_url` still returns true (the `.+\?v=` path alternative absorbs
the embedded scheme), contradicting the claim that any leading characters
before the scheme make it return false. -/
theorem C7_counterexample :
    is_youtube_url
        ("youtube.com/" ++ "https://www.youtube.com/watch?v=AAAAAAAAAAA")
        = true ∧
    is_youtube_url "https://www.youtube.com/watch?v=AAAAAAAAAAA" = true := by
  exact ⟨by decide, by decide⟩

/-- C7 (amended): `is_supported_link` returns true for every string formed
from an optional scheme (`http://` or `https://`), an optional `www.`
label, one of the three recognized host/TLD pairs, one of the recognized
path shapes (or none), an 11-character token over the characters outside
`&`, `=`, `%`, `?`, and arbitrary trailing content.  The anchoring at the
start of the string holds only in the weaker form that a string whose
first character can begin neither the scheme, nor `www.`, nor a host
pattern returns false; leading characters that themselves complete a host
pattern can still yield a match. -/
theorem C7_link_recognition :
    (∀ sch wp host tld shape token junk : String,
      sch ∈ (["", "http://", "https://"] : List String) →
      wp ∈ (["", "www."] : List String) →
      (host, tld) ∈ ([("youtube", "com"), ("youtu", "be"),
                      ("youtube-nocookie", "com")] : List (String × String)) →
      shape ∈ (["watch?v=", "embed/", "v/", ""] : List String) →
      token.length = 11 →
      (∀ c ∈ token.data, isIdChar c = true) →
      is_youtube_url
          (sch ++ wp ++ host ++ "." ++ tld ++ "/" ++ shape ++ token ++ junk)
        = true) ∧
    (∀ (c : Char) (rest : List Char), c ≠ 'h' → c ≠ 'w' → c ≠ 'y' →
      is_youtube_url ⟨c :: rest⟩ = false) := by
  constructor
  · intro sch wp host tld shape token junk hs hw hht hp hlen htok
    have hhost : host ∈ (["youtube", "youtu", "youtube-nocookie"] :
        List String) := by
      rcases (by simpa using hht :
          (host, tld) = ("youtube", "com") ∨ (host, tld) = ("youtu", "be") ∨
          (host, tld) = ("youtube-nocookie", "com")) with h | h | h <;>
        simp [Prod.ext_iff] at h <;> simp [h.1]
    have htld : tld ∈ (["com", "be"] : List String) := by
      rcases (by simpa using hht :
          (host, tld) = ("youtube", "com") ∨ (host, tld) = ("youtu", "be") ∨
          (host, tld) = ("youtube-nocookie", "com")) with h | h | h <;>
        simp [Prod.ext_iff] at h <;> simp [h.2]
    have hdata :
        (sch ++ wp ++ host ++ "." ++ tld ++ "/" ++ shape ++ token ++
            junk).data =
          sch.data ++ (wp.data ++ (host.data ++ ('.' :: (tld.data ++
            ('/' :: (shape.data ++ (token.data ++ junk.data))))))) := by
      simp [strData_append, List.append_assoc]
    rw [is_youtube_url, hdata]
    apply @reMatch_of_mem _ _ junk.data
    apply mem_reMatches_seq (consume_scheme sch hs _)
    apply mem_reMatches_seq (consume_www wp hw _)
    apply mem_reMatches_seq (consume_host host hhost _)
    apply mem_reMatches_seq (mem_reMatches_chr '.' _)
    apply mem_reMatches_seq (consume_tld tld htld _)
    apply mem_reMatches_seq (mem_reMatches_chr '/' _)
    apply mem_reMatches_seq (consume_path shape hp _)
    have hlen' : token.data.length = 11 := hlen
    show junk.data ∈ reMatches (repCls isIdChar 11) (token.data ++ junk.data)
    rw [show (11 : Nat) = token.data.length from hlen'.symm]
    exact mem_reMatches_repCls isIdChar token.data junk.data htok
  · intro c rest h1 h2 h3
    have hb1 : (c == 'h') = false := by simpa using h1
    have hb2 : (c == 'w') = false := by simpa using h2
    have hb3 : (c == 'y') = false := by simpa using h3
    have ehttp : reMatches (strRE "http") (c :: rest) = [] :=
      strREL_cons_ne hb1
    have ewww : reMatches (strRE "www.") (c :: rest) = [] :=
      strREL_cons_ne hb2
    have eyt : reMatches (strRE "youtube") (c :: rest) = [] :=
      strREL_cons_ne hb3
    have eyu : reMatches (strRE "youtu") (c :: rest) = [] :=
      strREL_cons_ne hb3
    have eyn : reMatches (strRE "youtube-nocookie") (c :: rest) = [] :=
      strREL_cons_ne hb3
    have hS : reMatches schemePart (c :: rest) = [c :: rest] := by
      rw [schemePart, reMatches_opt_eq, reMatches_seq_eq, ehttp]
      simp
    have hW : reMatches wwwPart (c :: rest) = [c :: rest] := by
      rw [wwwPart, reMatches_opt_eq, ewww]
      simp
    have hH : reMatches hostPart (c :: rest) = [] := by
      rw [hostPart, reMatches_alt_eq, reMatches_alt_eq, eyt, eyu, eyn]
      simp
    have hall : reMatches youtube_regex (c :: rest) = [] := by
      rw [youtube_regex, reMatches_seq_eq, hS]
      simp only [List.flatMap_cons, List.flatMap_nil, List.append_nil]
      rw [reMatches_seq_eq, hW]
      simp only [List.flatMap_cons, List.flatMap_nil, List.append_nil]
      rw [reMatches_seq_eq, hH]
      simp
    show reMatch youtube_regex (c :: rest) = false
    simp [reMatch, hall]

/-- Witness for C7 (amended): a concrete recognized link built from the
quantified pieces, and a concrete string whose first character blocks the
match. -/
theorem C7_witness :
    is_youtube_url
        ("https://" ++ "" ++ "youtu" ++ "." ++ "be" ++ "/" ++ "" ++
          "dQw4w9WgXcQ" ++ "") = true ∧
    is_youtube_url ⟨' ' :: "x".data⟩ = false :=
  ⟨C7_link_recognition.1 "https://" "" "youtu" "be" "" "dQw4w9WgXcQ" ""
      (by decide) (by decide) (by decide) (by decide) (by decide)
      (by decide),
   C7_link_recognition.2 ' ' "x".data (by decide) (by decide) (by decide)⟩

/-- C9: because the host and top-level-domain alternations are independent,
`is_youtube_url` accepts hosts outside the three recognized domains, such
as youtu.com and youtube.be. -/
theorem C9_cross_product_hosts :
    is_youtube_url "https://youtu.com/watch?v=AAAAAAAAAAA" = true ∧
    is_youtube_url "https://youtube.be/watch?v=AAAAAAAAAAA" = true := by
  exact ⟨by decide, by decide⟩

/-- Witness for C10 at a concrete extractor run with absent duration. -/
theorem C10_witness :
    (download_audio_sync defaultLimits
        { info_title := some "T", info_duration := none,
          info_uploader := some "U", files := ["a.mp3"],
          fsize := fun _ => 5 } "tmp").1 = true ∧
    (∀ e, (download_audio_sync defaultLimits
        { info_title := some "T", info_duration := none,
          info_uploader := some "U", files := ["a.mp3"],
          fsize := fun _ => 5 } "tmp").2 = .error e → e = noAudioMsg) ∧
    (∀ r, (download_audio_sync defaultLimits
        { info_title := some "T", info_duration := none,
          info_uploader := some "U", files := ["a.mp3"],
          fsize := fun _ => 5 } "tmp").2 = .ok r →
        r.duration = 0 ∧ durationStr r.duration = "0:00") :=
  C10_unknown_duration defaultLimits _ "tmp" rfl (by decide)

end YTBot
